import Mathlib

/-!
Shallow embedding of `minitorch/datasets.py`.

Modelling choices:
* Python floats are modelled as rationals `ℚ`; the decimal literals of the
  source (`0.5`, `0.2`, `0.8`, `0.1`, `10.0`, `20.0`) are exact rationals.
* The global random source (`random.random()`) is modelled as an explicit
  stream `g : ℕ → ℚ` of successive draws; the loop in `make_pts` consumes
  draws `g (2*i)` and `g (2*i+1)` on iteration `i`.
* `math.cos` and `math.sin` are modelled as abstract parameters
  `c s : ℚ → ℚ` of `spiral`; nothing proved here depends on their values.
* Python `int` is `ℤ`; `range(N)` for `N ≤ 0` is empty, `N // 2` is floor
  division (`Int.fdiv`).
* A Python expression that can raise (the division `float(i) / (N // 2)`,
  a dict lookup) is modelled in `Option`, `none` standing for the raised
  exception.
-/

namespace MiniTorch

/-- `make_pts(N)`: the loop `for i in range(N)` appending
`(random.random(), random.random())`, with the random source explicit. -/
def make_pts (g : ℕ → ℚ) (N : ℤ) : List (ℚ × ℚ) :=
  (List.range N.toNat).map (fun i => (g (2 * i), g (2 * i + 1)))

/-- The dataclass `Graph(N, X, y)`. -/
structure Graph where
  N : ℤ
  X : List (ℚ × ℚ)
  y : List ℤ
deriving DecidableEq

/-- Body of the comprehension in `simple`: `1 if x_1 < 0.5 else 0`. -/
def simpleLabel (p : ℚ × ℚ) : ℤ := if p.1 < 0.5 then 1 else 0

/-- Body of the comprehension in `diag`: `1 if x_1 + x_2 < 0.5 else 0`. -/
def diagLabel (p : ℚ × ℚ) : ℤ := if p.1 + p.2 < 0.5 then 1 else 0

/-- Body of the comprehension in `split`:
`1 if x_1 < 0.2 or x_1 > 0.8 else 0`. -/
def splitLabel (p : ℚ × ℚ) : ℤ := if p.1 < 0.2 ∨ p.1 > 0.8 then 1 else 0

/-- Body of the comprehension in `xor`:
`1 if (x_1 < 0.5 and x_2 > 0.5) or (x_1 > 0.5 and x_2 < 0.5) else 0`. -/
def xorLabel (p : ℚ × ℚ) : ℤ :=
  if (p.1 < 0.5 ∧ p.2 > 0.5) ∨ (p.1 > 0.5 ∧ p.2 < 0.5) then 1 else 0

/-- Body of the comprehension in `circle`:
`1 if (x_1 - 0.5) ** 2 + (x_2 - 0.5) ** 2 > 0.1 else 0`. -/
def circleLabel (p : ℚ × ℚ) : ℤ :=
  if (p.1 - 0.5) ^ 2 + (p.2 - 0.5) ^ 2 > 0.1 then 1 else 0

/-- `simple(N)`. -/
def simple (g : ℕ → ℚ) (N : ℤ) : Graph :=
  let X := make_pts g N
  ⟨N, X, X.map simpleLabel⟩

/-- `diag(N)`. -/
def diag (g : ℕ → ℚ) (N : ℤ) : Graph :=
  let X := make_pts g N
  ⟨N, X, X.map diagLabel⟩

/-- `split(N)`. -/
def split (g : ℕ → ℚ) (N : ℤ) : Graph :=
  let X := make_pts g N
  ⟨N, X, X.map splitLabel⟩

/-- `xor(N)`. -/
def xor (g : ℕ → ℚ) (N : ℤ) : Graph :=
  let X := make_pts g N
  ⟨N, X, X.map xorLabel⟩

/-- `circle(N)`. -/
def circle (g : ℕ → ℚ) (N : ℤ) : Graph :=
  let X := make_pts g N
  ⟨N, X, X.map circleLabel⟩

/-- Python `range(a, b)` over integers. -/
def pyRange (a b : ℤ) : List ℤ :=
  (List.range (b - a).toNat).map (fun (k : ℕ) => a + (k : ℤ))

/-- Python division, which raises `ZeroDivisionError` on a zero divisor. -/
def pyDiv (a b : ℚ) : Option ℚ :=
  if b = 0 then none else some (a / b)

/-- A list comprehension whose body may raise: `none` as soon as the body
raises on some element. -/
def mapE (f : α → Option β) : List α → Option (List β)
  | [] => some []
  | a :: l => do
      let b ← f a
      let bs ← mapE f l
      pure (b :: bs)

/-- The inner helper `x(t) = t * math.cos(t) / 20.0` of `spiral`. -/
def spiralX (c : ℚ → ℚ) (t : ℚ) : ℚ := t * c t / 20.0

/-- The inner helper `y(t) = t * math.sin(t) / 20.0` of `spiral`. -/
def spiralY (s : ℚ → ℚ) (t : ℚ) : ℚ := t * s t / 20.0

/-- `spiral(N)`, with `math.cos`, `math.sin` abstract and the possible
`ZeroDivisionError` inside the comprehension bodies reflected in `Option`. -/
def spiral (c s : ℚ → ℚ) (N : ℤ) : Option Graph := do
  let d := N.fdiv 2
  let A ← mapE (fun (i : ℤ) => do
      let q ← pyDiv (i : ℚ) (d : ℚ)
      pure (spiralX c (10.0 * q) + 0.5, spiralY s (10.0 * q) + 0.5))
    (pyRange (5 + 0) (5 + d))
  let B ← mapE (fun (i : ℤ) => do
      let q ← pyDiv (i : ℚ) (d : ℚ)
      pure (spiralY s (-10.0 * q) + 0.5, spiralX c (-10.0 * q) + 0.5))
    (pyRange (5 + 0) (5 + d))
  pure ⟨N, A ++ B, List.replicate d.toNat 0 ++ List.replicate d.toNat 1⟩

/-- The value `spiral(N)` evaluates to when no exception is raised
(the divisions taken total). -/
def spiralGraph (c s : ℚ → ℚ) (N : ℤ) : Graph :=
  let d := N.fdiv 2
  ⟨N,
   (pyRange (5 + 0) (5 + d)).map (fun (i : ℤ) =>
      (spiralX c (10.0 * ((i : ℚ) / (d : ℚ))) + 0.5,
       spiralY s (10.0 * ((i : ℚ) / (d : ℚ))) + 0.5)) ++
   (pyRange (5 + 0) (5 + d)).map (fun (i : ℤ) =>
      (spiralY s (-10.0 * ((i : ℚ) / (d : ℚ))) + 0.5,
       spiralX c (-10.0 * ((i : ℚ) / (d : ℚ))) + 0.5)),
   List.replicate d.toNat 0 ++ List.replicate d.toNat 1⟩

/-- Tags for the six registered generator functions. -/
inductive Gen where
  | simpleG | diagG | splitG | xorG | circleG | spiralG
deriving DecidableEq

/-- The `datasets` dict; lookup of an absent key raises (`none`). -/
def datasets (name : String) : Option Gen :=
  if name = "Simple" then some Gen.simpleG
  else if name = "Diag" then some Gen.diagG
  else if name = "Split" then some Gen.splitG
  else if name = "Xor" then some Gen.xorG
  else if name = "Circle" then some Gen.circleG
  else if name = "Spiral" then some Gen.spiralG
  else none

/-- Calling the function a registry tag stands for, with the random source
and the trigonometric functions passed explicitly. -/
def runGen : Gen → (ℕ → ℚ) → (ℚ → ℚ) → (ℚ → ℚ) → ℤ → Option Graph
  | Gen.simpleG, g, _, _, N => some (simple g N)
  | Gen.diagG, g, _, _, N => some (diag g N)
  | Gen.splitG, g, _, _, N => some (split g N)
  | Gen.xorG, g, _, _, N => some (xor g N)
  | Gen.circleG, g, _, _, N => some (circle g N)
  | Gen.spiralG, _, c, s, N => spiral c s N

/-! Spec-side definitions, written from the specification's words, to be
compared with the code-side definitions above. -/

/-- From the spec's rule table: `simple` gives 1 iff x1 < 0.5, else 0. -/
def specRuleSimple (x1 _x2 : ℚ) : ℤ := if x1 < 0.5 then 1 else 0

/-- From the spec's rule table: `diag` gives 1 iff x1 + x2 < 0.5, else 0. -/
def specRuleDiag (x1 x2 : ℚ) : ℤ := if x1 + x2 < 0.5 then 1 else 0

/-- From the spec's rule table: `split` gives 1 iff x1 < 0.2 or x1 > 0.8,
else 0. -/
def specRuleSplit (x1 _x2 : ℚ) : ℤ := if x1 < 0.2 ∨ x1 > 0.8 then 1 else 0

/-- From the spec's rule table: `xor` gives 1 iff
(x1 < 0.5 and x2 > 0.5) or (x1 > 0.5 and x2 < 0.5), else 0. -/
def specRuleXor (x1 x2 : ℚ) : ℤ :=
  if (x1 < 0.5 ∧ x2 > 0.5) ∨ (x1 > 0.5 ∧ x2 < 0.5) then 1 else 0

/-- From the spec's rule table: `circle` gives 1 iff
(x1 − 0.5)² + (x2 − 0.5)² > 0.1, else 0. -/
def specRuleCircle (x1 x2 : ℚ) : ℤ :=
  if (x1 - 0.5) ^ 2 + (x2 - 0.5) ^ 2 > 0.1 then 1 else 0

/-- From the spec: Arm A of the spiral — for i in [5, 5 + N//2),
t = 10·(i / (N//2)), point (t·cos(t)/20 + 0.5, t·sin(t)/20 + 0.5). -/
def specArmA (c s : ℚ → ℚ) (N : ℤ) : List (ℚ × ℚ) :=
  (List.range (N.fdiv 2).toNat).map (fun (k : ℕ) =>
    let i : ℤ := 5 + (k : ℤ)
    let t : ℚ := 10 * ((i : ℚ) / ((N.fdiv 2 : ℤ) : ℚ))
    (t * c t / 20 + 0.5, t * s t / 20 + 0.5))

/-- From the spec: Arm B of the spiral — for i in [5, 5 + N//2),
t = −10·(i / (N//2)), point (t·sin(t)/20 + 0.5, t·cos(t)/20 + 0.5)
(coordinate roles swapped relative to Arm A). -/
def specArmB (c s : ℚ → ℚ) (N : ℤ) : List (ℚ × ℚ) :=
  (List.range (N.fdiv 2).toNat).map (fun (k : ℕ) =>
    let i : ℤ := 5 + (k : ℤ)
    let t : ℚ := -10 * ((i : ℚ) / ((N.fdiv 2 : ℤ) : ℚ))
    (t * s t / 20 + 0.5, t * c t / 20 + 0.5))

/-- A random stream whose first four draws are 0.3, 0.9, 0.7, 0.1, so that
`make_pts` produces the points (0.3, 0.9) and (0.7, 0.1). -/
def exampleDraws : ℕ → ℚ := fun k => [0.3, 0.9, 0.7, 0.1].getD k 0

/-- The dataset invariants of the spec: count = N, N points, N labels,
every label 0 or 1. -/
def wellFormed (G : Graph) (N : ℤ) : Prop :=
  G.N = N ∧ (G.X.length : ℤ) = N ∧ (G.y.length : ℤ) = N ∧
    ∀ l ∈ G.y, l = 0 ∨ l = 1

/-! Shared lemmas. -/

lemma mapE_eq_map {α β : Type} (f : α → Option β) (h : α → β) :
    ∀ l : List α, (∀ a ∈ l, f a = some (h a)) → mapE f l = some (l.map h)
  | [], _ => rfl
  | a :: l, H => by
      simp only [mapE, List.map]
      rw [H a (List.mem_cons_self a l),
        mapE_eq_map f h l (fun b hb => H b (List.mem_cons_of_mem a hb))]
      rfl

/-- `spiral` never actually divides by zero: when `N // 2 ≤ 0` both
comprehension ranges are empty, and otherwise the divisor `N // 2` is
nonzero, so the call always returns the graph with the divisions taken
total. -/
lemma spiral_eq_some (c s : ℚ → ℚ) (N : ℤ) :
    spiral c s N = some (spiralGraph c s N) := by
  simp only [spiral, spiralGraph]
  rcases le_or_lt (N.fdiv 2) 0 with hd | hd
  · have he : pyRange (5 + 0) (5 + N.fdiv 2) = [] := by
      simp only [pyRange]
      rw [show (5 + N.fdiv 2 - (5 + 0)).toNat = 0 by omega]
      rfl
    rw [he]
    rfl
  · have hne : ((N.fdiv 2 : ℤ) : ℚ) ≠ 0 := by
      exact_mod_cast (by omega : N.fdiv 2 ≠ 0)
    rw [mapE_eq_map _ (fun i : ℤ =>
        (spiralX c (10.0 * ((i : ℚ) / ((N.fdiv 2 : ℤ) : ℚ))) + 0.5,
         spiralY s (10.0 * ((i : ℚ) / ((N.fdiv 2 : ℤ) : ℚ))) + 0.5)) _
        (fun i _ => by simp [pyDiv, hne]),
      mapE_eq_map _ (fun i : ℤ =>
        (spiralY s (-10.0 * ((i : ℚ) / ((N.fdiv 2 : ℤ) : ℚ))) + 0.5,
         spiralX c (-10.0 * ((i : ℚ) / ((N.fdiv 2 : ℤ) : ℚ))) + 0.5)) _
        (fun i _ => by simp [pyDiv, hne])]
    rfl

lemma spiralGraph_lengths (c s : ℚ → ℚ) (N : ℤ) :
    (spiralGraph c s N).X.length = 2 * (N.fdiv 2).toNat ∧
      (spiralGraph c s N).y.length = 2 * (N.fdiv 2).toNat := by
  constructor
  · simp only [spiralGraph, List.length_append, List.length_map, pyRange,
      List.length_range]
    omega
  · simp only [spiralGraph, List.length_append, List.length_replicate]
    omega

/-! Claim theorems. -/

/-- C1: For each of the five non-spiral generators and every point in the
returned dataset, the label at the same index equals the spec's fixed rule
applied to that point (1 exactly when the rule's condition holds, 0
otherwise); in particular, with draws producing the points (0.3, 0.9) and
(0.7, 0.1), `simple` labels them 1 and 0 respectively. -/
theorem labels_follow_spec_rules :
    (∀ (g : ℕ → ℚ) (N : ℤ),
        (simple g N).y = (simple g N).X.map (fun p => specRuleSimple p.1 p.2)
      ∧ (diag g N).y = (diag g N).X.map (fun p => specRuleDiag p.1 p.2)
      ∧ (split g N).y = (split g N).X.map (fun p => specRuleSplit p.1 p.2)
      ∧ (xor g N).y = (xor g N).X.map (fun p => specRuleXor p.1 p.2)
      ∧ (circle g N).y = (circle g N).X.map (fun p => specRuleCircle p.1 p.2))
  ∧ (simple exampleDraws 2).X = [(0.3, 0.9), (0.7, 0.1)]
  ∧ (simple exampleDraws 2).y = [1, 0] := by
  have hr : List.range 2 = [0, 1] := rfl
  have hX : make_pts exampleDraws 2 = [(0.3, 0.9), (0.7, 0.1)] := by
    simp [make_pts, hr, exampleDraws]
  refine ⟨fun g N => ⟨rfl, rfl, rfl, rfl, rfl⟩, hX, ?_⟩
  show (make_pts exampleDraws 2).map simpleLabel = [1, 0]
  rw [hX]
  simp [simpleLabel]
  norm_num

/-- C3: For each of the five non-spiral generators and every N ≥ 0, the
returned dataset has count = N, exactly N points, exactly N labels, and
every label is 0 or 1. -/
theorem nonspiral_well_formed (g : ℕ → ℚ) (N : ℤ) (hN : 0 ≤ N) :
    wellFormed (simple g N) N ∧ wellFormed (diag g N) N ∧
      wellFormed (split g N) N ∧ wellFormed (xor g N) N ∧
      wellFormed (circle g N) N := by
  have hlen : ((make_pts g N).length : ℤ) = N := by
    simp [make_pts]
    omega
  have hbin : ∀ (f : ℚ × ℚ → Prop) [DecidablePred f],
      ∀ l ∈ (make_pts g N).map (fun p => if f p then (1 : ℤ) else 0),
        l = 0 ∨ l = 1 := by
    intro f _ l hl
    rcases List.mem_map.1 hl with ⟨p, _, hp⟩
    by_cases h : f p <;> simp [h] at hp <;> omega
  have hy : ∀ f : ℚ × ℚ → ℤ, (((make_pts g N).map f).length : ℤ) = N :=
    fun f => by simpa using hlen
  exact ⟨⟨rfl, hlen, hy _, hbin (fun p => p.1 < 0.5)⟩,
    ⟨rfl, hlen, hy _, hbin (fun p => p.1 + p.2 < 0.5)⟩,
    ⟨rfl, hlen, hy _, hbin (fun p => p.1 < 0.2 ∨ p.1 > 0.8)⟩,
    ⟨rfl, hlen, hy _,
      hbin (fun p => (p.1 < 0.5 ∧ p.2 > 0.5) ∨ (p.1 > 0.5 ∧ p.2 < 0.5))⟩,
    ⟨rfl, hlen, hy _,
      hbin (fun p => (p.1 - 0.5) ^ 2 + (p.2 - 0.5) ^ 2 > 0.1)⟩⟩

/-- Witness for C3 at N = 2 with the all-zero random stream. -/
theorem nonspiral_well_formed_witness :
    (0 : ℤ) ≤ 2 ∧
      (wellFormed (simple (fun _ => 0) 2) 2 ∧
        wellFormed (diag (fun _ => 0) 2) 2 ∧
        wellFormed (split (fun _ => 0) 2) 2 ∧
        wellFormed (xor (fun _ => 0) 2) 2 ∧
        wellFormed (circle (fun _ => 0) 2) 2) :=
  ⟨by decide, nonspiral_well_formed (fun _ => 0) 2 (by decide)⟩

/-- C7: `make_pts N` returns exactly N points for N ≥ 0 (the empty list
for N = 0), and if every draw of the random source lies in [0,1) then both
coordinates of every returned point lie in [0,1). -/
theorem make_pts_length_and_range (g : ℕ → ℚ) (N : ℤ) :
    (0 ≤ N → ((make_pts g N).length : ℤ) = N)
  ∧ ((∀ k, 0 ≤ g k ∧ g k < 1) →
      ∀ p ∈ make_pts g N, (0 ≤ p.1 ∧ p.1 < 1) ∧ (0 ≤ p.2 ∧ p.2 < 1))
  ∧ make_pts g 0 = [] := by
  refine ⟨fun hN => ?_, fun hg p hp => ?_, rfl⟩
  · simp [make_pts]
    omega
  · rcases List.mem_map.1 hp with ⟨i, _, hi⟩
    rw [← hi]
    exact ⟨hg (2 * i), hg (2 * i + 1)⟩

/-- Witness for C7 at N = 3 with the constant-zero random stream. -/
theorem make_pts_length_and_range_witness :
    ((0 : ℤ) ≤ 3 → ((make_pts (fun _ => 0) 3).length : ℤ) = 3)
  ∧ ((∀ k : ℕ, (0 : ℚ) ≤ (fun (_ : ℕ) => (0 : ℚ)) k ∧
        (fun (_ : ℕ) => (0 : ℚ)) k < 1) →
      ∀ p ∈ make_pts (fun _ => 0) 3,
        (0 ≤ p.1 ∧ p.1 < 1) ∧ (0 ≤ p.2 ∧ p.2 < 1))
  ∧ make_pts (fun _ => 0) 0 = [] :=
  make_pts_length_and_range (fun _ => 0) 3

/-- C8: with the randomness source explicit, every generator is
deterministic — equal sources and equal N give identical datasets; spiral,
which takes no random source at all, returns identical datasets for equal
N unconditionally. -/
theorem generators_deterministic (g₁ g₂ : ℕ → ℚ) (hg : ∀ k, g₁ k = g₂ k)
    (N : ℤ) :
    simple g₁ N = simple g₂ N ∧ diag g₁ N = diag g₂ N ∧
      split g₁ N = split g₂ N ∧ xor g₁ N = xor g₂ N ∧
      circle g₁ N = circle g₂ N ∧
      ∀ (c s : ℚ → ℚ) (N₁ N₂ : ℤ), N₁ = N₂ →
        spiral c s N₁ = spiral c s N₂ := by
  have h : g₁ = g₂ := funext hg
  subst h
  exact ⟨rfl, rfl, rfl, rfl, rfl, fun c s N₁ N₂ h12 => by rw [h12]⟩

/-- Witness for C8 with two syntactically distinct but pointwise-equal
random streams at N = 1. -/
theorem generators_deterministic_witness :
    simple (fun _ => 0) 1 = simple (fun k => 0 * (k : ℚ)) 1 ∧
      diag (fun _ => 0) 1 = diag (fun k => 0 * (k : ℚ)) 1 ∧
      split (fun _ => 0) 1 = split (fun k => 0 * (k : ℚ)) 1 ∧
      xor (fun _ => 0) 1 = xor (fun k => 0 * (k : ℚ)) 1 ∧
      circle (fun _ => 0) 1 = circle (fun k => 0 * (k : ℚ)) 1 ∧
      ∀ (c s : ℚ → ℚ) (N₁ N₂ : ℤ), N₁ = N₂ →
        spiral c s N₁ = spiral c s N₂ :=
  generators_deterministic (fun _ => 0) (fun k => 0 * (k : ℚ))
    (fun k => by ring) 1

/-- C9: every decision comparison of the five labeling rules is strict, so
a point exactly on a rule's boundary gets label 0: x1 = 0.5 for `simple`
and `xor` (and x2 = 0.5 for `xor`), x1 + x2 = 0.5 for `diag`, x1 = 0.2 or
x1 = 0.8 for `split`, and squared distance exactly 0.1 for `circle`. -/
theorem boundary_points_get_label_zero :
    (∀ x2 : ℚ, simpleLabel (0.5, x2) = 0)
  ∧ (∀ x1 x2 : ℚ, x1 + x2 = 0.5 → diagLabel (x1, x2) = 0)
  ∧ (∀ x2 : ℚ, splitLabel (0.2, x2) = 0)
  ∧ (∀ x2 : ℚ, splitLabel (0.8, x2) = 0)
  ∧ (∀ x2 : ℚ, xorLabel (0.5, x2) = 0)
  ∧ (∀ x1 : ℚ, xorLabel (x1, 0.5) = 0)
  ∧ (∀ x1 x2 : ℚ, (x1 - 0.5) ^ 2 + (x2 - 0.5) ^ 2 = 0.1 →
      circleLabel (x1, x2) = 0) := by
  refine ⟨fun x2 => ?_, fun x1 x2 h => ?_, fun x2 => ?_, fun x2 => ?_,
    fun x2 => ?_, fun x1 => ?_, fun x1 x2 h => ?_⟩
  · simp [simpleLabel]
  · simp [diagLabel, h]
  · norm_num [splitLabel]
  · norm_num [splitLabel]
  · norm_num [xorLabel]
  · norm_num [xorLabel]
  · simp [circleLabel, h]

/-- Witness for C9: the boundary instances (0.2, 0.3) for `diag` and
(0.8, 0.6) for `circle` (squared distance 0.09 + 0.01 = 0.1). -/
theorem boundary_points_get_label_zero_witness :
    ((0.2 : ℚ) + 0.3 = 0.5 ∧ diagLabel (0.2, 0.3) = 0)
  ∧ (((0.8 : ℚ) - 0.5) ^ 2 + ((0.6 : ℚ) - 0.5) ^ 2 = 0.1 ∧
      circleLabel (0.8, 0.6) = 0) :=
  ⟨⟨by norm_num, boundary_points_get_label_zero.2.1 0.2 0.3 (by norm_num)⟩,
   ⟨by norm_num,
    boundary_points_get_label_zero.2.2.2.2.2.2 0.8 0.6 (by norm_num)⟩⟩

/-- C10: for negative N, `make_pts` returns the empty list and each
non-spiral generator returns the graph ⟨N, [], []⟩ — count is the negative
N while points and labels are empty, silently violating the
count = len(points) invariant. -/
theorem negative_N_gives_empty_graph (g : ℕ → ℚ) (N : ℤ) (hN : N < 0) :
    make_pts g N = []
  ∧ simple g N = ⟨N, [], []⟩ ∧ diag g N = ⟨N, [], []⟩
  ∧ split g N = ⟨N, [], []⟩ ∧ xor g N = ⟨N, [], []⟩
  ∧ circle g N = ⟨N, [], []⟩
  ∧ ((simple g N).X.length : ℤ) ≠ (simple g N).N := by
  have h0 : N.toNat = 0 := by omega
  have hmp : make_pts g N = [] := by
    simp [make_pts, h0]
  exact ⟨hmp, by simp [simple, hmp], by simp [diag, hmp],
    by simp [split, hmp], by simp [xor, hmp], by simp [circle, hmp],
    by simp [simple, hmp]; omega⟩

/-- Witness for C10 at N = −1. -/
theorem negative_N_gives_empty_graph_witness :
    (-1 : ℤ) < 0 ∧
      (make_pts (fun _ => 0) (-1) = []
      ∧ simple (fun _ => 0) (-1) = ⟨-1, [], []⟩
      ∧ diag (fun _ => 0) (-1) = ⟨-1, [], []⟩
      ∧ split (fun _ => 0) (-1) = ⟨-1, [], []⟩
      ∧ xor (fun _ => 0) (-1) = ⟨-1, [], []⟩
      ∧ circle (fun _ => 0) (-1) = ⟨-1, [], []⟩
      ∧ ((simple (fun _ => 0) (-1)).X.length : ℤ) ≠
          (simple (fun _ => 0) (-1)).N) :=
  ⟨by decide, negative_N_gives_empty_graph (fun _ => 0) (-1) (by decide)⟩

lemma spiralGraph_eq_spec_arms (c s : ℚ → ℚ) (N : ℤ) :
    spiralGraph c s N = ⟨N, specArmA c s N ++ specArmB c s N,
      List.replicate (N.fdiv 2).toNat 0 ++
        List.replicate (N.fdiv 2).toNat 1⟩ := by
  simp only [spiralGraph, specArmA, specArmB, pyRange, List.map_map,
    Function.comp_def, spiralX, spiralY,
    show (5 + 0 : ℤ) = 5 from by norm_num,
    show (10.0 : ℚ) = 10 from by norm_num,
    show (20.0 : ℚ) = 20 from by norm_num]
  rw [show (5 + N.fdiv 2 - 5).toNat = (N.fdiv 2).toNat from by omega]

/-- C2: for every N ≥ 2, `spiral` builds its points analytically, with no
random source among its inputs: the result is Arm A (the points
(t·cos(t)/20 + 0.5, t·sin(t)/20 + 0.5) for t = 10·(i/(N//2)),
i ∈ [5, 5 + N//2)) followed by Arm B (coordinate roles swapped, t negated),
with N//2 zero labels followed by N//2 one labels, index-aligned. -/
theorem spiral_matches_spec_arms (c s : ℚ → ℚ) (N : ℤ) (hN : 2 ≤ N) :
    spiral c s N = some ⟨N, specArmA c s N ++ specArmB c s N,
      List.replicate (N.fdiv 2).toNat 0 ++
        List.replicate (N.fdiv 2).toNat 1⟩ := by
  rw [spiral_eq_some, spiralGraph_eq_spec_arms]

/-- Witness for C2 at N = 2 with zero trigonometric functions. -/
theorem spiral_matches_spec_arms_witness :
    (2 : ℤ) ≤ 2 ∧ spiral (fun _ => 0) (fun _ => 0) 2 =
      some ⟨2, specArmA (fun _ => 0) (fun _ => 0) 2 ++
          specArmB (fun _ => 0) (fun _ => 0) 2,
        List.replicate ((2 : ℤ).fdiv 2).toNat 0 ++
          List.replicate ((2 : ℤ).fdiv 2).toNat 1⟩ :=
  ⟨le_refl 2,
   spiral_matches_spec_arms (fun _ => 0) (fun _ => 0) 2 (le_refl 2)⟩

/-- C4: for every N ≥ 2, `spiral N` returns a dataset whose count field is
the requested N while both points and labels have length 2·(N//2): for odd
N the point count is N − 1 ≠ count, for even N it is N. Concretely,
`spiral 10` has 10 points and labels [0,0,0,0,0,1,1,1,1,1]. -/
theorem spiral_count_vs_lengths (c s : ℚ → ℚ) (N : ℤ) (hN : 2 ≤ N) :
    spiral c s N = some (spiralGraph c s N)
  ∧ (spiralGraph c s N).N = N
  ∧ ((spiralGraph c s N).X.length : ℤ) = 2 * N.fdiv 2
  ∧ ((spiralGraph c s N).y.length : ℤ) = 2 * N.fdiv 2
  ∧ (N % 2 = 1 → ((spiralGraph c s N).X.length : ℤ) = N - 1 ∧
      ((spiralGraph c s N).X.length : ℤ) ≠ N)
  ∧ (N % 2 = 0 → ((spiralGraph c s N).X.length : ℤ) = N)
  ∧ (spiralGraph c s 10).X.length = 10
  ∧ (spiralGraph c s 10).y = [0, 0, 0, 0, 0, 1, 1, 1, 1, 1] := by
  have hf : N.fdiv 2 = N / 2 := Int.fdiv_eq_ediv N (by norm_num)
  have hlen := spiralGraph_lengths c s N
  have hX : ((spiralGraph c s N).X.length : ℤ) = 2 * N.fdiv 2 := by
    rw [hlen.1]
    rw [hf]
    push_cast
    omega
  have hlen10 := spiralGraph_lengths c s 10
  have h105 : ((10 : ℤ).fdiv 2).toNat = 5 := by decide
  refine ⟨spiral_eq_some c s N, rfl, hX, ?_, fun hodd => ?_, fun heven => ?_,
    ?_, ?_⟩
  · rw [hlen.2, ← hlen.1, hX]
  · constructor <;> rw [hX, hf] <;> omega
  · rw [hX, hf]
    omega
  · rw [hlen10.1, h105]
  · show List.replicate ((10 : ℤ).fdiv 2).toNat 0 ++
        List.replicate ((10 : ℤ).fdiv 2).toNat 1 = _
    rw [h105]
    rfl

/-- Witness for C4 at odd N = 3 with zero trigonometric functions. -/
theorem spiral_count_vs_lengths_witness :
    (2 : ℤ) ≤ 3 ∧
      (spiral (fun _ => 0) (fun _ => 0) 3 =
          some (spiralGraph (fun _ => 0) (fun _ => 0) 3)
      ∧ (spiralGraph (fun _ => 0) (fun _ => 0) 3).N = 3
      ∧ ((spiralGraph (fun _ => 0) (fun _ => 0) 3).X.length : ℤ) =
          2 * (3 : ℤ).fdiv 2
      ∧ ((spiralGraph (fun _ => 0) (fun _ => 0) 3).y.length : ℤ) =
          2 * (3 : ℤ).fdiv 2
      ∧ ((3 : ℤ) % 2 = 1 →
          ((spiralGraph (fun _ => 0) (fun _ => 0) 3).X.length : ℤ) = 3 - 1 ∧
          ((spiralGraph (fun _ => 0) (fun _ => 0) 3).X.length : ℤ) ≠ 3)
      ∧ ((3 : ℤ) % 2 = 0 →
          ((spiralGraph (fun _ => 0) (fun _ => 0) 3).X.length : ℤ) = 3)
      ∧ (spiralGraph (fun _ => 0) (fun _ => 0) 10).X.length = 10
      ∧ (spiralGraph (fun _ => 0) (fun _ => 0) 10).y =
          [0, 0, 0, 0, 0, 1, 1, 1, 1, 1]) :=
  ⟨by decide,
   spiral_count_vs_lengths (fun _ => 0) (fun _ => 0) 3 (by decide)⟩

/-- C5 as stated is false: `spiral 0` returns a dataset (the division sits
inside comprehensions over the empty range [5, 5 + 0) and is never
evaluated), rather than being undefined; likewise `spiral 1`. -/
theorem spiral_small_N_counterexample :
    spiral (fun _ => 0) (fun _ => 0) 0 = some ⟨0, [], []⟩
  ∧ spiral (fun _ => 0) (fun _ => 0) 1 = some ⟨1, [], []⟩ :=
  ⟨rfl, rfl⟩

/-- C5 amended: for every N < 2 we have N//2 ≤ 0, so both comprehension
ranges [5, 5 + N//2) are empty, the division by N//2 is never evaluated,
and `spiral N` returns the dataset ⟨N, [], []⟩ rather than failing. -/
theorem spiral_small_N_returns_empty (c s : ℚ → ℚ) (N : ℤ) (hN : N < 2) :
    spiral c s N = some ⟨N, [], []⟩ := by
  have hf : N.fdiv 2 = N / 2 := Int.fdiv_eq_ediv N (by norm_num)
  have hd : (N.fdiv 2).toNat = 0 := by
    rw [hf]
    omega
  rw [spiral_eq_some]
  simp only [spiralGraph, pyRange,
    show (5 + N.fdiv 2 - (5 + 0)).toNat = 0 from by rw [hf]; omega, hd]
  rfl

/-- Witness for the amended C5 at N = 1. -/
theorem spiral_small_N_returns_empty_witness :
    (1 : ℤ) < 2 ∧ spiral (fun _ => 0) (fun _ => 0) 1 = some ⟨1, [], []⟩ :=
  ⟨by decide, spiral_small_N_returns_empty (fun _ => 0) (fun _ => 0) 1
    (by decide)⟩

/-- C6: the registry's domain is exactly the six case-sensitive keys
"Simple", "Diag", "Split", "Xor", "Circle", "Spiral", each resolving to
the corresponding labeling function (in particular "Xor" resolves to the
xor generator); resolving an unknown name such as "bogus" yields the
not-found failure (`none`, Python's KeyError) rather than a function. -/
theorem registry_domain_and_lookup :
    (∀ name : String, (datasets name).isSome ↔
        name = "Simple" ∨ name = "Diag" ∨ name = "Split" ∨ name = "Xor"
      ∨ name = "Circle" ∨ name = "Spiral")
  ∧ datasets "Simple" = some Gen.simpleG
  ∧ datasets "Diag" = some Gen.diagG
  ∧ datasets "Split" = some Gen.splitG
  ∧ datasets "Xor" = some Gen.xorG
  ∧ datasets "Circle" = some Gen.circleG
  ∧ datasets "Spiral" = some Gen.spiralG
  ∧ (∀ (g : ℕ → ℚ) (c s : ℚ → ℚ) (N : ℤ),
        runGen Gen.simpleG g c s N = some (simple g N)
      ∧ runGen Gen.diagG g c s N = some (diag g N)
      ∧ runGen Gen.splitG g c s N = some (split g N)
      ∧ runGen Gen.xorG g c s N = some (xor g N)
      ∧ runGen Gen.circleG g c s N = some (circle g N)
      ∧ runGen Gen.spiralG g c s N = spiral c s N)
  ∧ datasets "bogus" = none := by
  refine ⟨fun name => ?_, rfl, rfl, rfl, rfl, rfl, rfl,
    fun g c s N => ⟨rfl, rfl, rfl, rfl, rfl, rfl⟩, rfl⟩
  unfold datasets
  split_ifs with h1 h2 h3 h4 h5 h6 <;> simp_all

end MiniTorch
